import Mathlib

/-!
Verification of the temporal detection filter (`Detector`) from
`object_detection_video_stream.py`.

The filter consumes per-frame detection results and applies temporal
debouncing: a detection is reported only after being present for more than
`time_th` seconds, brief absences are bridged by returning the cached
detections, and a long enough absence clears the cache.

Scores, box coordinates and clock times are modelled as rationals; the
ambient `time.time()` read is passed explicitly as the `curr_time`
argument of each call.
-/

/-- One raw detection produced by the model for a frame: a label, a
confidence score and a bounding box (whose semantics are opaque to the
filter and passed through unchanged). -/
structure RawDetection where
  label : String
  score : ℚ
  bbox : List ℚ
deriving DecidableEq

/-- One verified detection as returned by `Detector.get_detections`, of the
form `{'label': label, 'bbox': bbox}` — the score is dropped. -/
structure OutDetection where
  label : String
  bbox : List ℚ
deriving DecidableEq

/-- The state of a `Detector` instance together with its construction
parameters: `labels`, `score_th` and `time_th` are set by `__init__` and
never mutated; `time_detected` (initially `-1.0`, the time of first
detection) and `detections` (the list of last verified detections,
initially empty) are mutated by `get_detections`. -/
structure Detector where
  labels : List String
  score_th : ℚ
  time_th : ℚ
  time_detected : ℚ
  detections : List OutDetection
deriving DecidableEq

namespace Detector

/-- The class attribute `Detector._absent_time_th = 2`: how much time (in
seconds) should elapse with nothing detected before the saved detections
are removed. -/
def absent_time_th : ℚ := 2

/-- The constructor `Detector.__init__(labels, score_th, time_th)`. -/
def init (labels : List String) (score_th time_th : ℚ) : Detector :=
  { labels := labels, score_th := score_th, time_th := time_th,
    time_detected := -1, detections := [] }

/-- The per-detection test `label in self.labels and score > self.score_th`
from the scan loop of `get_detections`. -/
def isCandidate (labels : List String) (score_th : ℚ) (r : RawDetection) : Bool :=
  labels.contains r.label && decide (score_th < r.score)

/-- The value of `is_something_detected` after the scan loop: whether any
result has a watched label and a score above the threshold. -/
def anyDetected (labels : List String) (score_th : ℚ)
    (results : List RawDetection) : Bool :=
  results.any (isCandidate labels score_th)

/-- The contents of `curr_detections` right after the scan loop: every
candidate result is appended when `self.time_detected > 0.0` and
`curr_time - self.time_detected > self.time_th`. -/
def scanOut (s : Detector) (results : List RawDetection) (curr_time : ℚ) :
    List OutDetection :=
  results.filterMap (fun r =>
    if isCandidate s.labels s.score_th r = true ∧ 0 < s.time_detected ∧
        s.time_th < curr_time - s.time_detected then
      some { label := r.label, bbox := r.bbox }
    else none)

/-- The method `Detector.get_detections(self, inference_result)`, returning
the list of verified detections together with the updated state.  The body
is a direct purification of the Python source: `curr1` is `curr_detections`
after the absence-handling block, `dets1`/`td1` are `self.detections` and
`self.time_detected` after that block, and `dets2`/`td2` are their final
values after the last two `if` statements. -/
def get_detections (s : Detector) (results : List RawDetection)
    (curr_time : ℚ) : List OutDetection × Detector :=
  let is_det := anyDetected s.labels s.score_th results
  let curr0 := scanOut s results curr_time
  let curr1 :=
    if 0 < s.time_detected ∧ is_det = false then
      (if curr_time - s.time_detected < absent_time_th then s.detections
       else curr0)
    else curr0
  let dets1 :=
    if 0 < s.time_detected ∧ is_det = false ∧
        ¬ curr_time - s.time_detected < absent_time_th ∧
        s.detections ≠ [] then
      ([] : List OutDetection)
    else s.detections
  let td1 :=
    if 0 < s.time_detected ∧ is_det = false ∧
        ¬ curr_time - s.time_detected < absent_time_th ∧
        s.detections ≠ [] then
      (-1 : ℚ)
    else s.time_detected
  let dets2 := if curr1 ≠ [] then curr1 else dets1
  let td2 := if is_det = true ∧ td1 < 0 then curr_time else td1
  (curr1, { s with detections := dets2, time_detected := td2 })

/-- Processing a sequence of calls, each a pair of a frame (list of raw
detections) and the clock time sampled at that call, collecting the list
returned by each call and the final state. -/
def runCalls (s : Detector) :
    List (List RawDetection × ℚ) → List (List OutDetection) × Detector
  | [] => ([], s)
  | c :: rest =>
    let r := get_detections s c.1 c.2
    let r2 := runCalls r.2 rest
    (r.1 :: r2.1, r2.2)

end Detector

/-- A concrete raw detection used in the worked scenarios:
`{label:"cat", score:0.9, bbox:[0,0,1,1]}`. -/
def catDet : RawDetection := { label := "cat", score := 9/10, bbox := [0, 0, 1, 1] }

/-- A concrete raw detection whose label is not watched by the scenario
filters. -/
def dogDet : RawDetection := { label := "dog", score := 9/10, bbox := [0, 0, 1, 1] }

/-- The verified form of `catDet`: `{label:"cat", bbox:[0,0,1,1]}`. -/
def catOut : OutDetection := { label := "cat", bbox := [0, 0, 1, 1] }

/-- A filter state with a running streak (started at time 1) and a
non-empty cache of last verified detections. -/
def sVerified : Detector :=
  { labels := ["cat"], score_th := 1/2, time_th := 1,
    time_detected := 1, detections := [catOut] }

/-- A freshly reset filter state with a degenerate sustain threshold of
zero seconds. -/
def sFresh : Detector :=
  { labels := ["cat"], score_th := 1/2, time_th := 0,
    time_detected := -1, detections := [] }

/-- A filter state whose streak timestamp is the unset sentinel while the
cache still holds a detection. -/
def sCached : Detector :=
  { labels := ["cat"], score_th := 1/2, time_th := 1,
    time_detected := -1, detections := [catOut] }

/-- The idle filter state of the worked scenario: streak timestamp unset,
cache empty. -/
def sIdle : Detector :=
  { labels := ["cat"], score_th := 1/2, time_th := 1,
    time_detected := -1, detections := [] }

namespace Detector

theorem runCalls_nil (s : Detector) : runCalls s [] = ([], s) := rfl

theorem runCalls_cons (s : Detector) (c : List RawDetection × ℚ)
    (rest : List (List RawDetection × ℚ)) :
    runCalls s (c :: rest) =
      ((get_detections s c.1 c.2).1 ::
        (runCalls (get_detections s c.1 c.2).2 rest).1,
       (runCalls (get_detections s c.1 c.2).2 rest).2) := rfl

theorem scanOut_eq_nil_of_unset (s : Detector) (f : List RawDetection)
    (t : ℚ) (h : ¬ 0 < s.time_detected) : scanOut s f t = [] := by
  simp only [scanOut, List.filterMap_eq_nil_iff]
  intro r _
  rw [if_neg]
  intro hcon
  exact h hcon.2.1

theorem scanOut_eq_nil_of_short (s : Detector) (f : List RawDetection)
    (t : ℚ) (h : ¬ s.time_th < t - s.time_detected) : scanOut s f t = [] := by
  simp only [scanOut, List.filterMap_eq_nil_iff]
  intro r _
  rw [if_neg]
  intro hcon
  exact h hcon.2.2

theorem scanOut_eq_nil_of_absent (s : Detector) (f : List RawDetection)
    (t : ℚ) (h : anyDetected s.labels s.score_th f = false) :
    scanOut s f t = [] := by
  simp only [anyDetected, List.any_eq_false] at h
  simp only [scanOut, List.filterMap_eq_nil_iff]
  intro r hr
  rw [if_neg]
  intro hcon
  exact h r hr hcon.1

theorem scanOut_nil (s : Detector) (t : ℚ) : scanOut s [] t = [] := rfl

theorem anyDetected_nil (labels : List String) (sth : ℚ) :
    anyDetected labels sth [] = false := rfl

/-- Grace branch: the streak timestamp is set, nothing is detected in the
frame and less than `absent_time_th` has elapsed since the streak started,
so the call returns the saved detections and leaves the state unchanged. -/
theorem gd_grace (s : Detector) (f : List RawDetection) (t : ℚ)
    (h1 : 0 < s.time_detected)
    (h2 : anyDetected s.labels s.score_th f = false)
    (h3 : t - s.time_detected < absent_time_th) :
    get_detections s f t = (s.detections, s) := by
  simp [get_detections, h1, h2, h3, not_lt.mpr (le_of_lt h1)]

/-- Clear branch with a non-empty cache: nothing is detected, at least
`absent_time_th` has elapsed since the streak started, so the saved
detections are removed and the streak timestamp reset. -/
theorem gd_clear (s : Detector) (f : List RawDetection) (t : ℚ)
    (h1 : 0 < s.time_detected)
    (h2 : anyDetected s.labels s.score_th f = false)
    (h3 : ¬ t - s.time_detected < absent_time_th)
    (h4 : s.detections ≠ []) :
    get_detections s f t =
      ([], { s with detections := [], time_detected := -1 }) := by
  simp [get_detections, h1, h2, h3, h4, scanOut_eq_nil_of_absent s f t h2]

/-- Clear branch with an empty cache: nothing is detected and at least
`absent_time_th` has elapsed, but `len(self.detections) > 0` fails, so the
call returns empty and leaves the state (notably `time_detected`)
unchanged. -/
theorem gd_clear_empty (s : Detector) (f : List RawDetection) (t : ℚ)
    (h1 : 0 < s.time_detected)
    (h2 : anyDetected s.labels s.score_th f = false)
    (h3 : ¬ t - s.time_detected < absent_time_th)
    (h4 : s.detections = []) :
    get_detections s f t = ([], s) := by
  simp [get_detections, h1, h2, h3, h4, scanOut_eq_nil_of_absent s f t h2,
    not_lt.mpr (le_of_lt h1)]
  rw [← h4]

/-- Unset-streak case: `self.time_detected > 0.0` fails, so the scan
appends nothing, the absence block is skipped, and the only possible state
change is starting a new streak. -/
theorem gd_unset (s : Detector) (f : List RawDetection) (t : ℚ)
    (h : ¬ 0 < s.time_detected) :
    get_detections s f t =
      ([], { s with time_detected :=
        if anyDetected s.labels s.score_th f = true ∧ s.time_detected < 0
        then t else s.time_detected }) := by
  simp [get_detections, h, scanOut_eq_nil_of_unset s f t h]

/-- Presence case: something is detected, so the absence block is skipped,
the output is the scan result, the cache is refreshed when that result is
non-empty, and a new streak starts when the timestamp was unset. -/
theorem gd_present (s : Detector) (f : List RawDetection) (t : ℚ)
    (h : anyDetected s.labels s.score_th f = true) :
    get_detections s f t =
      (scanOut s f t,
        { s with
          detections :=
            if scanOut s f t ≠ [] then scanOut s f t else s.detections,
          time_detected :=
            if s.time_detected < 0 then t else s.time_detected }) := by
  simp [get_detections, h]

theorem runCalls_cons' (s : Detector) (f : List RawDetection) (t : ℚ)
    (rest : List (List RawDetection × ℚ)) :
    runCalls s ((f, t) :: rest) =
      ((get_detections s f t).1 ::
        (runCalls (get_detections s f t).2 rest).1,
       (runCalls (get_detections s f t).2 rest).2) := rfl

/-- A call on a frame with no candidate detections behaves exactly like a
call on an empty frame. -/
theorem gd_empty_frame (s : Detector) (f : List RawDetection) (t : ℚ)
    (h : anyDetected s.labels s.score_th f = false) :
    get_detections s f t = get_detections s [] t := by
  simp [get_detections, h, scanOut_eq_nil_of_absent s f t h, anyDetected_nil,
    scanOut_nil]

/-- While the streak timestamp is set and no more than `time_th` has
elapsed since it, a call on a state with an empty cache returns empty and
leaves the state unchanged, whatever the frame holds. -/
theorem gd_accum_step (s : Detector) (f : List RawDetection) (t : ℚ)
    (h1 : 0 < s.time_detected) (h2 : ¬ s.time_th < t - s.time_detected)
    (h3 : s.detections = []) : get_detections s f t = ([], s) := by
  cases hd : anyDetected s.labels s.score_th f with
  | true =>
    rw [gd_present s f t hd, scanOut_eq_nil_of_short s f t h2]
    simp [h3, not_lt.mpr (le_of_lt h1)]
    rw [← h3]
  | false =>
    by_cases hg : t - s.time_detected < absent_time_th
    · rw [gd_grace s f t h1 hd hg, h3]
    · rw [gd_clear_empty s f t h1 hd hg h3]

/-- The first call after construction whose frame holds a candidate
detection returns empty and only records the streak start. -/
theorem gd_init_present (labels : List String) (sth tth : ℚ)
    (f : List RawDetection) (t : ℚ) (hc : anyDetected labels sth f = true) :
    get_detections (init labels sth tth) f t =
      ([], ⟨labels, sth, tth, t, []⟩) := by
  rw [gd_present (init labels sth tth) f t hc,
    scanOut_eq_nil_of_unset (init labels sth tth) f t (by norm_num [init])]
  norm_num [init]

/-- Running any sequence of calls whose times stay within `tth` of the
streak start `t₀`, from a state with an empty cache, returns empty at
every call and leaves the state unchanged. -/
theorem runCalls_accum (labels : List String) (sth tth t₀ : ℚ) (h0 : 0 < t₀)
    (calls : List (List RawDetection × ℚ))
    (h : ∀ p ∈ calls, p.2 - t₀ ≤ tth) :
    runCalls ⟨labels, sth, tth, t₀, []⟩ calls =
      (calls.map fun _ => [], ⟨labels, sth, tth, t₀, []⟩) := by
  induction calls with
  | nil => rfl
  | cons c rest ih =>
    have hstep : get_detections ⟨labels, sth, tth, t₀, []⟩ c.1 c.2 =
        ([], ⟨labels, sth, tth, t₀, []⟩) :=
      gd_accum_step _ c.1 c.2 h0
        (not_lt.mpr (h c (List.mem_cons_self c rest))) rfl
    rw [runCalls_cons, hstep]
    simp [ih (fun p hp => h p (List.mem_cons_of_mem c hp))]

theorem scanOut_dets_irrel (labels : List String) (sth tth td : ℚ)
    (d d' : List OutDetection) (f : List RawDetection) (t : ℚ) :
    scanOut ⟨labels, sth, tth, td, d⟩ f t =
      scanOut ⟨labels, sth, tth, td, d'⟩ f t := rfl

theorem anyDetected_of_mem (labels : List String) (sth : ℚ)
    (f : List RawDetection) (r : RawDetection) (hr : r ∈ f)
    (hl : labels.contains r.label = true) (hs : sth < r.score) :
    anyDetected labels sth f = true := by
  simp only [anyDetected, List.any_eq_true]
  refine ⟨r, hr, ?_⟩
  simp only [isCandidate, Bool.and_eq_true, decide_eq_true_eq]
  exact ⟨hl, hs⟩

/-- Running calls whose frames all hold a candidate, from a state with a
positive streak timestamp `t₀`, returns at each call exactly the scan
output computed with streak start `t₀`. -/
theorem runCalls_present_outputs (labels : List String) (sth tth t₀ : ℚ)
    (h0 : 0 < t₀) (calls : List (List RawDetection × ℚ))
    (h : ∀ p ∈ calls, anyDetected labels sth p.1 = true) :
    ∀ d : List OutDetection,
      (runCalls ⟨labels, sth, tth, t₀, d⟩ calls).1 =
        calls.map fun p => scanOut ⟨labels, sth, tth, t₀, []⟩ p.1 p.2 := by
  induction calls with
  | nil => intro d; rfl
  | cons c rest ih =>
    intro d
    have hstep := gd_present ⟨labels, sth, tth, t₀, d⟩ c.1 c.2
      (h c (List.mem_cons_self c rest))
    rw [runCalls_cons, hstep]
    simp only [not_lt.mpr (le_of_lt h0), if_false]
    rw [scanOut_dets_irrel labels sth tth t₀ d [] c.1 c.2]
    simp [ih (fun p hp => h p (List.mem_cons_of_mem c hp))]

/-- C1 counterexample: with watched label "cat", score threshold 0.5 and
sustain threshold 1.0, calls at times 1 and 2.5 each seeing the cat
produce a verified (non-empty) report at time 2.5; the call at time 3 sees
nothing, and although the gap since presence dropped out is only 0.5s
(< 2.0s), it returns the empty set rather than the cached set, because the
grace comparison uses the streak start (time 1), and 3 - 1 = 2 ≥ 2. -/
theorem C1_counterexample :
    (runCalls (init ["cat"] (1/2) 1)
      [([catDet], 1), ([catDet], 5/2), ([], 3)]).1 = [[], [catOut], []] := by
  with_unfolding_all decide

/-- C1 (amended): grace bridging holds with the window anchored at the
streak start: for every state with the streak timestamp set, a call seeing
no watched-and-above-threshold detection with `now - firstDetectedAt`
less than the 2.0s grace threshold returns exactly the last verified
detections (non-empty when the cache is non-empty) and leaves the state
unchanged. -/
theorem C1_grace_anchored (s : Detector) (f : List RawDetection) (t : ℚ)
    (h1 : 0 < s.time_detected)
    (h2 : anyDetected s.labels s.score_th f = false)
    (h3 : t - s.time_detected < absent_time_th)
    (h4 : s.detections ≠ []) :
    (get_detections s f t).1 = s.detections ∧
      (get_detections s f t).1 ≠ [] ∧ (get_detections s f t).2 = s := by
  rw [gd_grace s f t h1 h2 h3]
  exact ⟨rfl, h4, rfl⟩

/-- Witness for C1 (amended) at the state `sVerified`, an empty frame and
time 2 (elapsed 1 < 2 since the streak start). -/
theorem C1_grace_anchored_witness :
    0 < sVerified.time_detected ∧
    anyDetected sVerified.labels sVerified.score_th [] = false ∧
    (2:ℚ) - sVerified.time_detected < absent_time_th ∧
    sVerified.detections ≠ [] ∧
    ((get_detections sVerified [] 2).1 = sVerified.detections ∧
      (get_detections sVerified [] 2).1 ≠ [] ∧
      (get_detections sVerified [] 2).2 = sVerified) :=
  ⟨by with_unfolding_all decide, rfl, by with_unfolding_all decide,
   by with_unfolding_all decide,
   C1_grace_anchored sVerified [] 2 (by with_unfolding_all decide) rfl
     (by with_unfolding_all decide) (by with_unfolding_all decide)⟩

/-- C2 counterexample: from the fresh filter, a cat frame at time 1 starts
a streak (cache still empty), and an empty frame at time 3.5 — sustained
absence of 2.5s ≥ 2.0s since the streak start — leaves `time_detected`
at 1 instead of resetting it to unset: with an empty cache the full reset
is skipped, so an Accumulating streak does not transition to Idle. -/
theorem C2_counterexample :
    (runCalls (init ["cat"] (1/2) 1)
        [([catDet], 1), ([], 7/2)]).2.time_detected = 1 ∧
    ¬ (runCalls (init ["cat"] (1/2) 1)
        [([catDet], 1), ([], 7/2)]).2.time_detected < 0 := by
  with_unfolding_all decide

/-- C2 (amended): on sustained absence of at least the 2.0s grace
threshold the call returns empty, and the full reset (cache cleared and
`time_detected` set back to the unset sentinel) happens exactly when the
cache was non-empty; with an empty cache the state is left unchanged, so
`firstDetectedAt` stays set. -/
theorem C2_reset_needs_cache (s : Detector) (f : List RawDetection) (t : ℚ)
    (h1 : 0 < s.time_detected)
    (h2 : anyDetected s.labels s.score_th f = false)
    (h3 : absent_time_th ≤ t - s.time_detected) :
    (get_detections s f t).1 = [] ∧
      (s.detections ≠ [] → (get_detections s f t).2 =
        { s with detections := [], time_detected := -1 }) ∧
      (s.detections = [] → (get_detections s f t).2 = s) := by
  have h3' : ¬ t - s.time_detected < absent_time_th := not_lt.mpr h3
  refine ⟨?_, fun h4 => ?_, fun h4 => ?_⟩
  · rcases eq_or_ne s.detections [] with h | h
    · rw [gd_clear_empty s f t h1 h2 h3' h]
    · rw [gd_clear s f t h1 h2 h3' h]
  · rw [gd_clear s f t h1 h2 h3' h4]
  · rw [gd_clear_empty s f t h1 h2 h3' h4]

/-- Witness for C2 (amended) at the state `sVerified`, an empty frame and
time 4 (elapsed 3 ≥ 2 since the streak start). -/
theorem C2_reset_needs_cache_witness :
    0 < sVerified.time_detected ∧
    anyDetected sVerified.labels sVerified.score_th [] = false ∧
    absent_time_th ≤ (4:ℚ) - sVerified.time_detected ∧
    ((get_detections sVerified [] 4).1 = [] ∧
      (sVerified.detections ≠ [] → (get_detections sVerified [] 4).2 =
        { sVerified with detections := [], time_detected := -1 }) ∧
      (sVerified.detections = [] → (get_detections sVerified [] 4).2 =
        sVerified)) :=
  ⟨by with_unfolding_all decide, rfl, by with_unfolding_all decide,
   C2_reset_needs_cache sVerified [] 4 (by with_unfolding_all decide) rfl
     (by with_unfolding_all decide)⟩

/-- C3 counterexample: with the scenario exactly as claimed — calls at
clock times 0, 0.5 and 1.5 each seeing `{label:"cat", score:0.9}` — every
call returns empty, including the one at time 1.5 that the claim expects
to return the cat detection: the streak start recorded at time 0 fails the
code's `self.time_detected > 0.0` test, so the streak never ages. -/
theorem C3_counterexample :
    (runCalls (init ["cat"] (1/2) 1)
      [([catDet], 0), ([catDet], 1/2), ([catDet], 3/2)]).1 = [[], [], []] := by
  with_unfolding_all decide

/-- C3 (amended): the worked scenario holds once the clock times are
shifted to strictly positive values with the same spacing: with calls at
times 1, 1.5 and 2.5 each carrying the cat detection, the filter returns
empty at time 1 (recording the streak start 1), empty at time 1.5
(elapsed 0.5 ≤ 1.0), and `{label:"cat", bbox:[0,0,1,1]}` at time 2.5
(elapsed 1.5 > 1.0). -/
theorem C3_scenario_shifted :
    (runCalls (init ["cat"] (1/2) 1)
        [([catDet], 1), ([catDet], 3/2), ([catDet], 5/2)]).1 =
      [[], [], [catOut]] ∧
    (runCalls (init ["cat"] (1/2) 1) [([catDet], 1)]).2.time_detected = 1 := by
  with_unfolding_all decide

/-- C4: no premature report — starting from the freshly constructed
filter, if the first call (at a positive clock time `t₀`) sees a candidate
and every later call happens no more than `time_th` seconds after `t₀`,
then every call in the sequence returns the empty set. -/
theorem C4_no_premature_report (labels : List String) (sth tth t₀ : ℚ)
    (f₀ : List RawDetection) (rest : List (List RawDetection × ℚ))
    (h0 : 0 < t₀) (hc : anyDetected labels sth f₀ = true)
    (hrest : ∀ p ∈ rest, p.2 - t₀ ≤ tth) :
    (runCalls (init labels sth tth) ((f₀, t₀) :: rest)).1 =
      ((f₀, t₀) :: rest).map fun _ => [] := by
  have h1 := gd_init_present labels sth tth f₀ t₀ hc
  have h2 := runCalls_accum labels sth tth t₀ h0 rest hrest
  rw [runCalls_cons', h1]
  simp [h2]

/-- Witness for C4: two cat frames at times 1 and 1.5 with sustain
threshold 1.0 both return empty. -/
theorem C4_no_premature_report_witness :
    (0:ℚ) < 1 ∧ anyDetected ["cat"] (1/2) [catDet] = true ∧
    (runCalls (init ["cat"] (1/2) 1) [([catDet], 1), ([catDet], 3/2)]).1 =
      ([([catDet], (1:ℚ)), ([catDet], 3/2)].map fun _ => []) :=
  ⟨by with_unfolding_all decide, by with_unfolding_all decide,
   C4_no_premature_report ["cat"] (1/2) 1 1 [catDet] [([catDet], 3/2)]
     (by with_unfolding_all decide) (by with_unfolding_all decide)
     (by with_unfolding_all decide)⟩

/-- C5: eventual report — starting from the freshly constructed filter at
a positive clock time `t₀`, if a watched label is candidate-present at
every call and some later call happens strictly more than `time_th`
seconds after `t₀`, then some call returns a set containing that label. -/
theorem C5_eventual_report (labels : List String) (sth tth t₀ : ℚ)
    (f₀ : List RawDetection) (rest : List (List RawDetection × ℚ))
    (lab : String) (h0 : 0 < t₀) (hl : labels.contains lab = true)
    (hall : ∀ p ∈ (f₀, t₀) :: rest, ∃ r ∈ p.1, r.label = lab ∧ sth < r.score)
    (hwit : ∃ p ∈ rest, tth < p.2 - t₀) :
    ((runCalls (init labels sth tth) ((f₀, t₀) :: rest)).1.any fun out =>
      out.any fun d => d.label == lab) = true := by
  have hcand : ∀ p ∈ (f₀, t₀) :: rest, anyDetected labels sth p.1 = true := by
    intro p hp
    obtain ⟨r, hr, hrl, hrs⟩ := hall p hp
    exact anyDetected_of_mem labels sth p.1 r hr (hrl ▸ hl) hrs
  have hc0 : anyDetected labels sth f₀ = true :=
    hcand (f₀, t₀) (List.mem_cons_self _ _)
  have h1 := gd_init_present labels sth tth f₀ t₀ hc0
  have h2 := runCalls_present_outputs labels sth tth t₀ h0 rest
    (fun p hp => hcand p (List.mem_cons_of_mem _ hp)) []
  rw [runCalls_cons', h1]
  simp only [List.any_cons, List.any_nil, Bool.false_or]
  rw [h2]
  obtain ⟨p, hp, hts⟩ := hwit
  obtain ⟨r, hr, hrl, hrs⟩ := hall p (List.mem_cons_of_mem _ hp)
  simp only [List.any_eq_true]
  refine ⟨scanOut ⟨labels, sth, tth, t₀, []⟩ p.1 p.2,
    List.mem_map_of_mem _ hp, ⟨{ label := r.label, bbox := r.bbox }, ?_, ?_⟩⟩
  · refine List.mem_filterMap.mpr ⟨r, hr, ?_⟩
    rw [if_pos]
    refine ⟨?_, h0, hts⟩
    simp only [isCandidate, Bool.and_eq_true, decide_eq_true_eq]
    exact ⟨hrl ▸ hl, hrs⟩
  · simp [hrl]

/-- Witness for C5: cat frames at times 1 and 2.5 with sustain threshold
1.0 produce a report containing "cat". -/
theorem C5_eventual_report_witness :
    (0:ℚ) < 1 ∧ (["cat"].contains "cat" = true) ∧
    ((runCalls (init ["cat"] (1/2) 1) [([catDet], 1), ([catDet], 5/2)]).1.any
      fun out => out.any fun d => d.label == "cat") = true :=
  ⟨by with_unfolding_all decide, rfl,
   C5_eventual_report ["cat"] (1/2) 1 1 [catDet] [([catDet], 5/2)] "cat"
     (by with_unfolding_all decide) rfl (by with_unfolding_all decide)
     (by with_unfolding_all decide)⟩

/-- C6: streak-start ordering — for every state whose streak timestamp is
unset (negative sentinel), a call whose frame does contain candidate
detections returns the empty set, with any sustain threshold including
zero or negative ones, and only then records the streak start `now`. -/
theorem C6_streak_starts_after_output (s : Detector) (f : List RawDetection)
    (t : ℚ) (hunset : s.time_detected < 0)
    (hc : anyDetected s.labels s.score_th f = true) :
    (get_detections s f t).1 = [] ∧
      (get_detections s f t).2.time_detected = t := by
  rw [gd_unset s f t (lt_asymm hunset)]
  exact ⟨rfl, by simp [hc, hunset]⟩

/-- Witness for C6 at the fresh state `sFresh` whose sustain threshold is
the degenerate value 0, a frame containing the cat detection and time 5. -/
theorem C6_streak_starts_after_output_witness :
    sFresh.time_detected < 0 ∧
    anyDetected sFresh.labels sFresh.score_th [catDet] = true ∧
    ((get_detections sFresh [catDet] 5).1 = [] ∧
      (get_detections sFresh [catDet] 5).2.time_detected = 5) :=
  ⟨by with_unfolding_all decide, by with_unfolding_all decide,
   C6_streak_starts_after_output sFresh [catDet] 5
     (by with_unfolding_all decide) (by with_unfolding_all decide)⟩

/-- C7: sticky-cache invariant — after any call, the stored detections can
only be empty if they were already empty before the call, or if the
absence-timeout clear branch ran: the streak timestamp was set, no
candidate was present, and at least the 2.0s grace threshold had elapsed
since the streak start. -/
theorem C7_sticky_cache (s : Detector) (f : List RawDetection) (t : ℚ)
    (h : (get_detections s f t).2.detections = []) :
    s.detections = [] ∨
      (0 < s.time_detected ∧ anyDetected s.labels s.score_th f = false ∧
        absent_time_th ≤ t - s.time_detected) := by
  by_cases h1 : 0 < s.time_detected
  · cases hd : anyDetected s.labels s.score_th f with
    | true =>
      rw [gd_present s f t hd] at h
      rcases ne_or_eq (scanOut s f t) [] with hne | he
      · simp [hne] at h
      · simp [he] at h
        exact Or.inl h
    | false =>
      by_cases hg : t - s.time_detected < absent_time_th
      · rw [gd_grace s f t h1 hd hg] at h
        exact Or.inl h
      · exact Or.inr ⟨h1, rfl, not_lt.mp hg⟩
  · rw [gd_unset s f t h1] at h
    exact Or.inl h

/-- Witness for C7 at the state `sVerified`, an empty frame and time 4:
the cache ends empty and the clear-branch conditions hold. -/
theorem C7_sticky_cache_witness :
    (get_detections sVerified [] 4).2.detections = [] ∧
    (sVerified.detections = [] ∨
      (0 < sVerified.time_detected ∧
        anyDetected sVerified.labels sVerified.score_th [] = false ∧
        absent_time_th ≤ (4:ℚ) - sVerified.time_detected)) :=
  ⟨by with_unfolding_all decide,
   C7_sticky_cache sVerified [] 4 (by with_unfolding_all decide)⟩

/-- C8: idle idempotence and frame condition — a call whose frame holds no
candidate detection, made from a state with the streak timestamp unset and
an empty cache, returns the empty set and leaves the whole state
unchanged; moreover, for any state, such a frame behaves identically to an
empty frame. -/
theorem C8_idle_idempotent (s : Detector) (f : List RawDetection) (t : ℚ)
    (h : anyDetected s.labels s.score_th f = false) :
    (s.time_detected < 0 → s.detections = [] →
      get_detections s f t = ([], s)) ∧
      get_detections s f t = get_detections s [] t := by
  refine ⟨fun h1 _ => ?_, gd_empty_frame s f t h⟩
  rw [gd_unset s f t (lt_asymm h1)]
  simp [h]

/-- Witness for C8 at the idle state `sIdle`, a frame holding only an
unwatched "dog" detection and time 3. -/
theorem C8_idle_idempotent_witness :
    anyDetected sIdle.labels sIdle.score_th [dogDet] = false ∧
    ((sIdle.time_detected < 0 → sIdle.detections = [] →
      get_detections sIdle [dogDet] 3 = ([], sIdle)) ∧
      get_detections sIdle [dogDet] 3 = get_detections sIdle [] 3) :=
  ⟨by with_unfolding_all decide,
   C8_idle_idempotent sIdle [dogDet] 3 (by with_unfolding_all decide)⟩

/-- C9: unset streak implies empty output — whenever the streak timestamp
holds the negative sentinel, a call returns the empty set regardless of
the frame's contents and of the cached detections. -/
theorem C9_unset_returns_empty (s : Detector) (f : List RawDetection)
    (t : ℚ) (h : s.time_detected < 0) : (get_detections s f t).1 = [] := by
  rw [gd_unset s f t (lt_asymm h)]

/-- Witness for C9 at the state `sCached` whose cache is non-empty, a
frame full of candidate detections and time 5. -/
theorem C9_unset_returns_empty_witness :
    sCached.time_detected < 0 ∧
    (get_detections sCached [catDet, catDet] 5).1 = [] :=
  ⟨by with_unfolding_all decide,
   C9_unset_returns_empty sCached [catDet, catDet] 5
     (by with_unfolding_all decide)⟩

/-- C10: grace deadline anchored to streak start — while the streak
timestamp is set, a call either keeps it unchanged or resets it to the
sentinel (it is never re-anchored to a later time), and a fully absent
frame at least 2.0 seconds after the streak start returns empty and ends
with an empty cache, regardless of how recently evidence was present. -/
theorem C10_grace_anchor (s : Detector) (f : List RawDetection) (t : ℚ)
    (h : 0 < s.time_detected) :
    ((get_detections s f t).2.time_detected = s.time_detected ∨
      (get_detections s f t).2.time_detected = -1) ∧
      (anyDetected s.labels s.score_th f = false →
        absent_time_th ≤ t - s.time_detected →
        (get_detections s f t).1 = [] ∧
          (get_detections s f t).2.detections = []) := by
  constructor
  · cases hd : anyDetected s.labels s.score_th f with
    | true =>
      rw [gd_present s f t hd]
      simp [not_lt.mpr (le_of_lt h)]
    | false =>
      by_cases hg : t - s.time_detected < absent_time_th
      · rw [gd_grace s f t h hd hg]
        exact Or.inl rfl
      · rcases eq_or_ne s.detections [] with he | hne
        · rw [gd_clear_empty s f t h hd hg he]
          exact Or.inl rfl
        · rw [gd_clear s f t h hd hg hne]
          simp
  · intro hd hge
    have hg : ¬ t - s.time_detected < absent_time_th := not_lt.mpr hge
    rcases eq_or_ne s.detections [] with he | hne
    · rw [gd_clear_empty s f t h hd hg he]
      exact ⟨rfl, he⟩
    · rw [gd_clear s f t h hd hg hne]
      simp

/-- Witness for C10 at the state `sVerified`, an empty frame and time 5. -/
theorem C10_grace_anchor_witness :
    0 < sVerified.time_detected ∧
    (((get_detections sVerified [] 5).2.time_detected =
        sVerified.time_detected ∨
      (get_detections sVerified [] 5).2.time_detected = -1) ∧
      (anyDetected sVerified.labels sVerified.score_th [] = false →
        absent_time_th ≤ (5:ℚ) - sVerified.time_detected →
        (get_detections sVerified [] 5).1 = [] ∧
          (get_detections sVerified [] 5).2.detections = [])) :=
  ⟨by with_unfolding_all decide,
   C10_grace_anchor sVerified [] 5 (by with_unfolding_all decide)⟩

end Detector
